import Mathlib

/-!
Shallow embedding of the unit-converter application (src/app.py) and proofs
about its conversion engine.

Python floats are modelled by `PyNum`: either an exact rational number or one
of the non-finite IEEE values (NaN, +inf, -inf).  The arithmetic the program
performs on the value always combines it with a finite literal or table
constant, so only those operation shapes are needed.  Python `None` arguments
are modelled with `Option`.  Python dictionaries are modelled as ordered
association lists with `alookup` for `dict.get` / `in` / indexing.  The
exceptions the two temperature helpers can raise (`raise ValueError`) are
modelled by `Option` results in the helpers and `Except String` at the
boundary of `convert_value`; Python's division-by-zero exception is modelled
by an explicit zero test on the divisor.
-/

set_option maxRecDepth 100000

/-- A Python float: an exact rational, or one of the non-finite values. -/
inductive PyNum where
  | fin (q : ℚ)
  | nan
  | inf
  | ninf
deriving DecidableEq, Repr

/-- `x + c` for a float `x` and finite constant `c`. -/
def PyNum.add : PyNum → ℚ → PyNum
  | .fin q, c => .fin (q + c)
  | .nan, _ => .nan
  | .inf, _ => .inf
  | .ninf, _ => .ninf

/-- `x - c` for a float `x` and finite constant `c`. -/
def PyNum.sub : PyNum → ℚ → PyNum
  | .fin q, c => .fin (q - c)
  | .nan, _ => .nan
  | .inf, _ => .inf
  | .ninf, _ => .ninf

/-- `x * c` for a float `x` and finite constant `c` (IEEE sign rules for the
infinite cases). -/
def PyNum.mulQ : PyNum → ℚ → PyNum
  | .fin q, c => .fin (q * c)
  | .nan, _ => .nan
  | .inf, c => if 0 < c then .inf else if c < 0 then .ninf else .nan
  | .ninf, c => if 0 < c then .ninf else if c < 0 then .inf else .nan

/-- `x / c` for a float `x` and finite nonzero constant `c` (IEEE sign rules
for the infinite cases; the `c = 0` case never arises because `convert_value`
models Python's ZeroDivisionError with an explicit guard). -/
def PyNum.divQ : PyNum → ℚ → PyNum
  | .fin q, c => .fin (q / c)
  | .nan, _ => .nan
  | .inf, c => if 0 < c then .inf else if c < 0 then .ninf else .nan
  | .ninf, c => if 0 < c then .ninf else if c < 0 then .inf else .nan

/-- The Python comparison `x < 0` (false on NaN). -/
def PyNum.ltZero : PyNum → Bool
  | .fin q => decide (q < 0)
  | .nan => false
  | .inf => false
  | .ninf => true

/-- Lookup in an ordered association list: the model of Python `dict`
access (`d.get(k)`, `k in d`, `d[k]`) for the program's literal tables,
whose keys are distinct. -/
def alookup {α : Type} (k : String) : List (String × α) → Option α
  | [] => none
  | (k2, v) :: rest => if k = k2 then some v else alookup k rest

/-- The conversion tables of src/app.py (`to_base`), an ordered association
list from category name to (unit name, scale-to-base-unit factor) pairs.
All Python float literals are exact decimals, reproduced here as rationals. -/
def to_base : List (String × List (String × ℚ)) :=
  [ ("Length",
      [("mm", 1e-3), ("cm", 1e-2), ("m", 1.0), ("km", 1e3),
       ("in", 0.0254), ("ft", 0.3048), ("yd", 0.9144), ("mi", 1609.344)]),
    ("Mass",
      [("mg", 1e-6), ("g", 1e-3), ("kg", 1.0), ("t (metric)", 1000.0),
       ("oz", 0.028349523125), ("lb", 0.45359237)]),
    ("Area",
      [("mm²", 1e-6), ("cm²", 1e-4), ("m²", 1.0), ("km²", 1e6),
       ("in²", 0.0254 ^ 2), ("ft²", 0.3048 ^ 2), ("yd²", 0.9144 ^ 2),
       ("acre", 4046.8564224), ("hectare", 10000.0)]),
    ("Volume",
      [("m³", 1.0), ("L", 1e-3), ("mL", 1e-6), ("cm³", 1e-6),
       ("in³", 0.0254 ^ 3), ("ft³", 0.3048 ^ 3),
       ("gal (US)", 0.003785411784), ("qt (US)", 0.000946352946)]),
    ("Pressure",
      [("Pa", 1.0), ("kPa", 1e3), ("MPa", 1e6),
       ("bar", 1e5), ("atm", 101325.0),
       ("psi", 6894.757293168), ("torr", 133.32236842105263)]),
    ("Density",
      [("kg/m³", 1.0), ("g/cm³", 1000.0), ("g/mL", 1000.0),
       ("lb/ft³", 16.01846337)]),
    ("Dynamic Viscosity",
      [("Pa·s", 1.0), ("P (poise)", 0.1), ("cP", 0.001), ("mPa·s", 0.001)]),
    ("Energy",
      [("J", 1.0), ("kJ", 1e3), ("MJ", 1e6),
       ("cal", 4.184), ("kcal", 4184.0),
       ("BTU (IT)", 1055.05585262)]),
    ("Volumetric Flow",
      [("m³/s", 1.0),
       ("m³/h", 1.0 / 3600.0),
       ("L/min", 1e-3 / 60.0),
       ("ft³/min (CFM)", 0.3048 ^ 3 / 60.0),
       ("gal/min (US gpm)", 0.003785411784 / 60.0)]),
    ("Amount (moles)",
      [("mmol", 1e-3), ("mol", 1.0), ("kmol", 1e3)]),
    ("Molar Flow",
      [("mol/s", 1.0), ("mol/h", 1.0 / 3600.0), ("kmol/h", 1e3 / 3600.0)]),
    ("Heat Transfer Coefficient",
      [("W/m²·K", 1.0),
       ("BTU/hr·ft²·°F", 5.678263)]) ]

/-- `TEMP_UNITS = ["C", "F", "K"]` from src/app.py. -/
def TEMP_UNITS : List String := ["C", "F", "K"]

/-- `CATEGORIES = list(to_base.keys()) + ["Temperature"]` from src/app.py. -/
def CATEGORIES : List String := to_base.map Prod.fst ++ ["Temperature"]

/-- `temp_to_kelvin(value, unit)` from src/app.py; `none` models the
`raise ValueError("Unknown temperature unit.")` branch. -/
def temp_to_kelvin (value : PyNum) (unit : String) : Option PyNum :=
  if unit = "K" then some value
  else if unit = "C" then some (value.add 273.15)
  else if unit = "F" then some (((value.sub 32.0).mulQ 5.0).divQ 9.0 |>.add 273.15)
  else none

/-- `kelvin_to_temp(K, unit)` from src/app.py; `none` models the
`raise ValueError("Unknown temperature unit.")` branch. -/
def kelvin_to_temp (K : PyNum) (unit : String) : Option PyNum :=
  if unit = "K" then some K
  else if unit = "C" then some (K.sub 273.15)
  else if unit = "F" then some (((K.sub 273.15).mulQ 9.0).divQ 5.0 |>.add 32.0)
  else none

/-- The distinct returns of `convert_value` in src/app.py: a successful
conversion (carrying the raw numbers that the f-string renders) or one of the
six literal failure messages. -/
inductive ConvResult where
  /-- `f"{pretty(value)} {from_unit} = {pretty(result)} {to_unit}"` -/
  | ok (value : PyNum) (fromU toU : String) (result : PyNum)
  /-- "Please select category and units." -/
  | errSelect
  /-- "Please enter a numeric value." -/
  | errValue
  /-- "Pick valid temperature units (C, F, K)." -/
  | errTempUnits
  /-- "Kelvin cannot be negative." -/
  | errNegKelvin
  /-- "Unknown category." -/
  | errUnknownCat
  /-- "Selected units do not match the chosen category." -/
  | errMismatch
deriving DecidableEq, Repr

/-- The spec's closed error taxonomy (spec.md §7). -/
inductive ErrorKind where
  | UnknownCategory
  | MissingUnit
  | UnitCategoryMismatch
  | InvalidValue
deriving DecidableEq, Repr

/-- The spec's mapping (§7) of each failure return to its ErrorKind;
`none` for a successful conversion. -/
def ConvResult.errorKind : ConvResult → Option ErrorKind
  | .ok _ _ _ _ => none
  | .errSelect => some .MissingUnit
  | .errValue => some .InvalidValue
  | .errTempUnits => some .UnitCategoryMismatch
  | .errNegKelvin => some .InvalidValue
  | .errUnknownCat => some .UnknownCategory
  | .errMismatch => some .UnitCategoryMismatch

instance {ε α : Type} [DecidableEq ε] [DecidableEq α] : DecidableEq (Except ε α) := fun a b =>
  match a, b with
  | .ok x, .ok y =>
    if h : x = y then .isTrue (by rw [h]) else .isFalse (fun hh => h (by cases hh; rfl))
  | .error x, .error y =>
    if h : x = y then .isTrue (by rw [h]) else .isFalse (fun hh => h (by cases hh; rfl))
  | .ok _, .error _ => .isFalse (fun hh => Except.noConfusion hh)
  | .error _, .ok _ => .isFalse (fun hh => Except.noConfusion hh)

/-- `convert_value(category, from_unit, to_unit, value)` from src/app.py.
`Except.error` models an exception escaping the function (the helpers'
ValueError, or Python's ZeroDivisionError on a zero scale factor); every
ordinary `return` is `Except.ok`. -/
def convert_value (category from_unit to_unit : Option String)
    (value : Option PyNum) : Except String ConvResult :=
  match category, from_unit, to_unit with
  | none, _, _ | _, none, _ | _, _, none => .ok .errSelect
  | some cat, some fu, some tu =>
    match value with
    | none => .ok .errValue
    | some v =>
      if cat = "Temperature" then
        if fu ∉ TEMP_UNITS ∨ tu ∉ TEMP_UNITS then .ok .errTempUnits
        else if fu = "K" ∧ v.ltZero then .ok .errNegKelvin
        else
          match temp_to_kelvin v fu with
          | none => .error "Unknown temperature unit."
          | some K =>
            match kelvin_to_temp K tu with
            | none => .error "Unknown temperature unit."
            | some result => .ok (.ok v fu tu result)
      else
        match alookup cat to_base with
        | none => .ok .errUnknownCat
        | some factors =>
          if alookup fu factors = none ∨ alookup tu factors = none then
            .ok .errMismatch
          else
            let a := (alookup fu factors).getD 0
            let b := (alookup tu factors).getD 0
            if b = 0 then .error "ZeroDivisionError"
            else .ok (.ok v fu tu ((v.mulQ a).divQ b))

/-- `update_unit_dropdowns(cat)` from src/app.py, as the data it computes:
the choice list, the default from-unit and the default to-unit.  The
`units[0]` / `units[1]` indexings are guarded by the preceding nonemptiness
fix-up, so they are modelled with total indexing. -/
def update_unit_dropdowns (cat : String) : List String × String × String :=
  let units0 :=
    if cat = "Temperature" then TEMP_UNITS
    else ((alookup cat to_base).getD []).map Prod.fst
  let units := if units0.isEmpty then ["--"] else units0
  let default_from := units.headD ""
  let default_to := if 1 < units.length then units.getD 1 "" else units.headD ""
  (units, default_from, default_to)

/-- The spec's fromUnit → Kelvin formulas (spec.md §4.1), on exact numbers. -/
def spec_temp_to_kelvin (x : ℚ) (u : String) : ℚ :=
  if u = "K" then x
  else if u = "C" then x + 273.15
  else (x - 32) * 5 / 9 + 273.15

/-- The spec's Kelvin → toUnit formulas (spec.md §4.1), on exact numbers. -/
def spec_kelvin_to_temp (K : ℚ) (u : String) : ℚ :=
  if u = "K" then K
  else if u = "C" then K - 273.15
  else (K - 273.15) * 9 / 5 + 32

/-! ### Facts about the static tables -/

theorem alookup_mem {α : Type} {k : String} {v : α} :
    ∀ {l : List (String × α)}, alookup k l = some v → ∃ p ∈ l, p.2 = v := by
  intro l
  induction l with
  | nil => intro h; simp [alookup] at h
  | cons p rest ih =>
    intro h
    rw [alookup] at h
    by_cases hk : k = p.1
    · rw [if_pos hk] at h
      exact ⟨p, List.mem_cons_self p rest, by injection h⟩
    · rw [if_neg hk] at h
      obtain ⟨q, hq, hqv⟩ := ih h
      exact ⟨q, List.mem_cons_of_mem p hq, hqv⟩

theorem to_base_factors_pos : ∀ p ∈ to_base, ∀ q ∈ p.2, (0 : ℚ) < q.2 := by
  with_unfolding_all decide

theorem to_base_factors_big : ∀ p ∈ to_base, 2 ≤ p.2.length := by
  with_unfolding_all decide

theorem alookup_temperature_to_base : alookup "Temperature" to_base = none := by
  with_unfolding_all decide

/-- A category that resolves in the registry is not the Temperature literal. -/
theorem resolved_ne_temperature {cat : String} {factors : List (String × ℚ)}
    (hcat : alookup cat to_base = some factors) : cat ≠ "Temperature" := by
  intro h
  rw [h, alookup_temperature_to_base] at hcat
  exact Option.noConfusion hcat

/-- Every scale factor reachable through the registry is positive. -/
theorem factor_pos {cat u : String} {factors : List (String × ℚ)} {f : ℚ}
    (hcat : alookup cat to_base = some factors)
    (hu : alookup u factors = some f) : 0 < f := by
  obtain ⟨p, hp, hpv⟩ := alookup_mem hcat
  obtain ⟨q, hq, hqv⟩ := alookup_mem hu
  subst hqv
  exact to_base_factors_pos p hp q (hpv ▸ hq)

/-- Every registry category has at least two units. -/
theorem factors_length {cat : String} {factors : List (String × ℚ)}
    (hcat : alookup cat to_base = some factors) : 2 ≤ factors.length := by
  obtain ⟨p, hp, hpv⟩ := alookup_mem hcat
  exact hpv ▸ to_base_factors_big p hp

/-! ### Branch reduction lemmas for `convert_value` -/

theorem mem_temp_units {u : String} (h : u ∈ TEMP_UNITS) :
    u = "C" ∨ u = "F" ∨ u = "K" := by
  simpa [TEMP_UNITS] using h

theorem temp_to_kelvin_isSome {u : String} (v : PyNum) (h : u ∈ TEMP_UNITS) :
    ∃ K, temp_to_kelvin v u = some K := by
  rcases mem_temp_units h with h | h | h <;> subst h <;> exact ⟨_, rfl⟩

theorem kelvin_to_temp_isSome {u : String} (K : PyNum) (h : u ∈ TEMP_UNITS) :
    ∃ r, kelvin_to_temp K u = some r := by
  rcases mem_temp_units h with h | h | h <;> subst h <;> exact ⟨_, rfl⟩

/-- On a finite input, `temp_to_kelvin` computes exactly the spec's
fromUnit → Kelvin formula. -/
theorem temp_to_kelvin_fin {u : String} (hu : u ∈ TEMP_UNITS) (x : ℚ) :
    temp_to_kelvin (.fin x) u = some (.fin (spec_temp_to_kelvin x u)) := by
  rcases mem_temp_units hu with h | h | h <;> subst h <;>
    (simp [temp_to_kelvin, spec_temp_to_kelvin, PyNum.add, PyNum.sub,
      PyNum.mulQ, PyNum.divQ]; try norm_num)

/-- On a finite input, `kelvin_to_temp` computes exactly the spec's
Kelvin → toUnit formula. -/
theorem kelvin_to_temp_fin {u : String} (hu : u ∈ TEMP_UNITS) (K : ℚ) :
    kelvin_to_temp (.fin K) u = some (.fin (spec_kelvin_to_temp K u)) := by
  rcases mem_temp_units hu with h | h | h <;> subst h <;>
    (simp [kelvin_to_temp, spec_kelvin_to_temp, PyNum.add, PyNum.sub,
      PyNum.mulQ, PyNum.divQ]; try norm_num)

/-- The linear path of `convert_value` when both units resolve in the
category's table. -/
theorem convert_linear_ok {cat fu tu : String} {factors : List (String × ℚ)} {a b : ℚ}
    (hcat : alookup cat to_base = some factors)
    (ha : alookup fu factors = some a) (hb : alookup tu factors = some b)
    (v : PyNum) :
    convert_value (some cat) (some fu) (some tu) (some v) =
      .ok (.ok v fu tu ((v.mulQ a).divQ b)) := by
  have hT := resolved_ne_temperature hcat
  have hbpos := factor_pos hcat hb
  simp [convert_value, hT, hcat, ha, hb, hbpos.ne']

/-- The linear path of `convert_value` when a unit does not resolve. -/
theorem convert_linear_mismatch {cat fu tu : String} {factors : List (String × ℚ)}
    (hcat : alookup cat to_base = some factors)
    (h : alookup fu factors = none ∨ alookup tu factors = none) (v : PyNum) :
    convert_value (some cat) (some fu) (some tu) (some v) = .ok .errMismatch := by
  have hT := resolved_ne_temperature hcat
  rcases h with h | h <;> simp [convert_value, hT, hcat, h]

/-- The temperature path of `convert_value` on valid units when the
negative-Kelvin guard passes. -/
theorem convert_temp_ok {fu tu : String} (hfu : fu ∈ TEMP_UNITS) (htu : tu ∈ TEMP_UNITS)
    {v : PyNum} (hK : ¬(fu = "K" ∧ v.ltZero = true)) {K r : PyNum}
    (h1 : temp_to_kelvin v fu = some K) (h2 : kelvin_to_temp K tu = some r) :
    convert_value (some "Temperature") (some fu) (some tu) (some v) =
      .ok (.ok v fu tu r) := by
  simp [convert_value, hfu, htu, hK, h1, h2]

/-- The temperature path of `convert_value` when a unit is not C, F or K. -/
theorem convert_temp_mismatch {fu tu : String}
    (h : fu ∉ TEMP_UNITS ∨ tu ∉ TEMP_UNITS) (v : PyNum) :
    convert_value (some "Temperature") (some fu) (some tu) (some v) =
      .ok .errTempUnits := by
  rcases h with h | h <;> simp [convert_value, h]

/-- The temperature path of `convert_value` on a negative Kelvin input. -/
theorem convert_temp_negK {tu : String} (htu : tu ∈ TEMP_UNITS)
    {v : PyNum} (hv : v.ltZero = true) :
    convert_value (some "Temperature") (some "K") (some tu) (some v) =
      .ok .errNegKelvin := by
  have hfu : "K" ∈ TEMP_UNITS := by simp [TEMP_UNITS]
  simp [convert_value, hfu, htu, hv]

/-- Roundtripping the spec's temperature formulas is the identity. -/
theorem spec_temp_roundtrip (u : String) (x : ℚ) :
    spec_kelvin_to_temp (spec_temp_to_kelvin x u) u = x := by
  unfold spec_temp_to_kelvin spec_kelvin_to_temp
  by_cases h1 : u = "K" <;> by_cases h2 : u = "C" <;> (simp [h1, h2]; try ring)

/-! ### Claims -/

/-- C1: for every linear category in the registry and every value, when both
units are present in that category's scale table, `convert_value` returns
exactly `value * scaleToBase[fromUnit] / scaleToBase[toUnit]`; when either
unit name is absent, it returns the UnitCategoryMismatch failure instead. -/
theorem convert_linear_correct (cat fu tu : String) (factors : List (String × ℚ))
    (hcat : alookup cat to_base = some factors) (x : ℚ) (v : PyNum) :
    (∀ a b : ℚ, alookup fu factors = some a → alookup tu factors = some b →
      convert_value (some cat) (some fu) (some tu) (some (.fin x)) =
        .ok (.ok (.fin x) fu tu (.fin (x * a / b)))) ∧
    (alookup fu factors = none ∨ alookup tu factors = none →
      convert_value (some cat) (some fu) (some tu) (some v) = .ok .errMismatch ∧
      ConvResult.errorKind .errMismatch = some .UnitCategoryMismatch) := by
  constructor
  · intro a b ha hb
    simpa [PyNum.mulQ, PyNum.divQ] using convert_linear_ok hcat ha hb (.fin x)
  · intro h
    exact ⟨convert_linear_mismatch hcat h v, rfl⟩

/-- Witness for C1: Length, m → ft at 3 (both units present), and the absent
unit kg in Length. -/
theorem convert_linear_correct_witness :
    convert_value (some "Length") (some "m") (some "ft") (some (.fin 3)) =
      .ok (.ok (.fin 3) "m" "ft" (.fin (3 * 1.0 / 0.3048))) ∧
    (convert_value (some "Length") (some "kg") (some "m") (some (.fin 1)) =
        .ok .errMismatch ∧
      ConvResult.errorKind .errMismatch = some .UnitCategoryMismatch) :=
  ⟨(convert_linear_correct "Length" "m" "ft" ((alookup "Length" to_base).getD [])
      rfl 3 (.fin 3)).1 1.0 0.3048 rfl rfl,
   (convert_linear_correct "Length" "kg" "m" ((alookup "Length" to_base).getD [])
      rfl 1 (.fin 1)).2 (Or.inl rfl)⟩

/-- C2 counterexample: K and C are valid temperature units and the claim's
formulas at value -5 predict the successful result -278.15, but
`convert_value` instead fails with the InvalidValue (negative Kelvin)
failure, so the claim as stated is false for fromUnit K and value < 0. -/
theorem convert_temperature_negK_counterexample :
    ("K" ∈ TEMP_UNITS ∧ "C" ∈ TEMP_UNITS) ∧
    convert_value (some "Temperature") (some "K") (some "C") (some (.fin (-5))) =
      .ok .errNegKelvin ∧
    ConvResult.errorKind .errNegKelvin = some .InvalidValue ∧
    spec_kelvin_to_temp (spec_temp_to_kelvin (-5) "K") "C" = -278.15 := by
  refine ⟨by simp [TEMP_UNITS], ?_, rfl, ?_⟩
  · exact convert_temp_negK (by simp [TEMP_UNITS]) (by simp [PyNum.ltZero])
  · simp [spec_temp_to_kelvin, spec_kelvin_to_temp]
    norm_num

/-- C2 (amended): for category Temperature, `convert_value` accepts exactly
the units C, F, K — any other unit fails with the UnitCategoryMismatch
failure — and, for inputs passing the negative-Kelvin domain check, computes
the result by mapping the input to Kelvin and applying the inverse formula
for the target unit. -/
theorem convert_temperature_correct (fu tu : String) (x : ℚ) (v : PyNum) :
    ((fu ∉ TEMP_UNITS ∨ tu ∉ TEMP_UNITS) →
      convert_value (some "Temperature") (some fu) (some tu) (some v) =
        .ok .errTempUnits ∧
      ConvResult.errorKind .errTempUnits = some .UnitCategoryMismatch) ∧
    (fu ∈ TEMP_UNITS → tu ∈ TEMP_UNITS → ¬(fu = "K" ∧ x < 0) →
      convert_value (some "Temperature") (some fu) (some tu) (some (.fin x)) =
        .ok (.ok (.fin x) fu tu
          (.fin (spec_kelvin_to_temp (spec_temp_to_kelvin x fu) tu)))) := by
  constructor
  · intro h
    exact ⟨convert_temp_mismatch h v, rfl⟩
  · intro hfu htu hK
    have hK2 : ¬(fu = "K" ∧ (PyNum.fin x).ltZero = true) := by
      simpa [PyNum.ltZero] using hK
    exact convert_temp_ok hfu htu hK2 (temp_to_kelvin_fin hfu x) (kelvin_to_temp_fin htu _)

/-- Witness for C2 (amended): the unit X is rejected, and 25 C → F succeeds
with the spec formulas' value. -/
theorem convert_temperature_correct_witness :
    (convert_value (some "Temperature") (some "X") (some "C") (some (.fin 1)) =
        .ok .errTempUnits ∧
      ConvResult.errorKind .errTempUnits = some .UnitCategoryMismatch) ∧
    convert_value (some "Temperature") (some "C") (some "F") (some (.fin 25)) =
      .ok (.ok (.fin 25) "C" "F"
        (.fin (spec_kelvin_to_temp (spec_temp_to_kelvin 25 "C") "F"))) :=
  ⟨(convert_temperature_correct "X" "C" 1 (.fin 1)).1
      (Or.inl (by simp [TEMP_UNITS])),
   (convert_temperature_correct "C" "F" 25 (.fin 25)).2
      (by simp [TEMP_UNITS]) (by simp [TEMP_UNITS]) (by simp)⟩

/-- C8: the three temperature fixed points — 0 C is 32 F, 0 C is 273.15 K,
and 212 F is 100 C — hold exactly. -/
theorem temperature_fixed_points :
    convert_value (some "Temperature") (some "C") (some "F") (some (.fin 0)) =
      .ok (.ok (.fin 0) "C" "F" (.fin 32)) ∧
    convert_value (some "Temperature") (some "C") (some "K") (some (.fin 0)) =
      .ok (.ok (.fin 0) "C" "K" (.fin 273.15)) ∧
    convert_value (some "Temperature") (some "F") (some "C") (some (.fin 212)) =
      .ok (.ok (.fin 212) "F" "C" (.fin 100)) := by
  have hC : "C" ∈ TEMP_UNITS := by simp [TEMP_UNITS]
  have hF : "F" ∈ TEMP_UNITS := by simp [TEMP_UNITS]
  refine ⟨?_, ?_, ?_⟩
  · have h := convert_temp_ok hC hF (by simp) (temp_to_kelvin_fin hC 0) (kelvin_to_temp_fin hF _)
    rw [h]
    simp [spec_temp_to_kelvin, spec_kelvin_to_temp]
    try norm_num
  · have hK : "K" ∈ TEMP_UNITS := by simp [TEMP_UNITS]
    have h := convert_temp_ok hC hK (by simp) (temp_to_kelvin_fin hC 0) (kelvin_to_temp_fin hK _)
    rw [h]
    simp [spec_temp_to_kelvin, spec_kelvin_to_temp]
  · have h := convert_temp_ok hF hC (by simp) (temp_to_kelvin_fin hF 212) (kelvin_to_temp_fin hC _)
    rw [h]
    simp [spec_temp_to_kelvin, spec_kelvin_to_temp]
    try norm_num

/-- C9: `convert_value` never raises across its boundary — for every input,
including None arguments, unknown categories or units, and non-finite values,
it returns an ordinary result; in particular the raising branches of
`temp_to_kelvin` / `kelvin_to_temp` are unreachable from `convert_value`
because the C/F/K membership check runs first. -/
theorem convert_never_raises (category from_unit to_unit : Option String)
    (value : Option PyNum) :
    ∃ r : ConvResult, convert_value category from_unit to_unit value = .ok r := by
  rcases category with _ | cat
  · rcases from_unit with _ | fu <;> rcases to_unit with _ | tu <;> exact ⟨.errSelect, rfl⟩
  rcases from_unit with _ | fu
  · rcases to_unit with _ | tu <;> exact ⟨.errSelect, rfl⟩
  rcases to_unit with _ | tu
  · exact ⟨.errSelect, rfl⟩
  rcases value with _ | v
  · exact ⟨.errValue, rfl⟩
  by_cases hT : cat = "Temperature"
  · subst hT
    by_cases hfu : fu ∈ TEMP_UNITS
    · by_cases htu : tu ∈ TEMP_UNITS
      · by_cases hK : fu = "K" ∧ v.ltZero = true
        · obtain ⟨h1, h2⟩ := hK
          subst h1
          exact ⟨.errNegKelvin, convert_temp_negK htu h2⟩
        · obtain ⟨K, h1⟩ := temp_to_kelvin_isSome v hfu
          obtain ⟨r, h2⟩ := kelvin_to_temp_isSome K htu
          exact ⟨.ok v fu tu r, convert_temp_ok hfu htu hK h1 h2⟩
      · exact ⟨.errTempUnits, convert_temp_mismatch (Or.inr htu) v⟩
    · exact ⟨.errTempUnits, convert_temp_mismatch (Or.inl hfu) v⟩
  · cases hcat : alookup cat to_base with
    | none => exact ⟨.errUnknownCat, by simp [convert_value, hT, hcat]⟩
    | some factors =>
      by_cases ha : alookup fu factors = none
      · exact ⟨.errMismatch, convert_linear_mismatch hcat (Or.inl ha) v⟩
      · by_cases hb : alookup tu factors = none
        · exact ⟨.errMismatch, convert_linear_mismatch hcat (Or.inr hb) v⟩
        · obtain ⟨a, ha2⟩ := Option.ne_none_iff_exists'.mp ha
          obtain ⟨b, hb2⟩ := Option.ne_none_iff_exists'.mp hb
          exact ⟨.ok v fu tu ((v.mulQ a).divQ b), convert_linear_ok hcat ha2 hb2 v⟩

/-- C3 counterexample: with the unrecognized category "Bogus" and a missing
(None) fromUnit, the failure is the MissingUnit-kind message, not
UnknownCategory; and with the recognized category "Length" and the supplied
empty-string unit "", the failure is the UnitCategoryMismatch message, not
MissingUnit.  Both contradict the claimed validation order. -/
theorem validation_order_counterexample :
    (convert_value (some "Bogus") none (some "m") (some (.fin 1)) = .ok .errSelect ∧
      ConvResult.errorKind .errSelect = some .MissingUnit ∧
      ConvResult.errorKind .errSelect ≠ some .UnknownCategory) ∧
    (convert_value (some "Length") (some "") (some "m") (some (.fin 1)) =
        .ok .errMismatch ∧
      ConvResult.errorKind .errMismatch = some .UnitCategoryMismatch ∧
      ConvResult.errorKind .errMismatch ≠ some .MissingUnit) :=
  ⟨⟨rfl, rfl, by simp [ConvResult.errorKind]⟩,
   ⟨@convert_linear_mismatch "Length" "" "m" ((alookup "Length" to_base).getD []) rfl
      (Or.inl rfl) (.fin 1),
    rfl, by simp [ConvResult.errorKind]⟩⟩

/-- C3 (amended): the presence (None) checks on category, fromUnit and toUnit
run first and return the combined MissingUnit-kind failure — even when the
category is unrecognized; the missing-value check runs next; only then does a
supplied non-Temperature category absent from the registry fail with
UnknownCategory; and a supplied unit string (empty or otherwise) that is not
in a recognized category's table fails with UnitCategoryMismatch, not
MissingUnit. -/
theorem convert_validation_order (cat fu tu : String) (v : Option PyNum) :
    convert_value none (some fu) (some tu) v = .ok .errSelect ∧
    convert_value (some cat) none (some tu) v = .ok .errSelect ∧
    convert_value (some cat) (some fu) none v = .ok .errSelect ∧
    ConvResult.errorKind .errSelect = some .MissingUnit ∧
    convert_value (some cat) (some fu) (some tu) none = .ok .errValue ∧
    (cat ≠ "Temperature" → alookup cat to_base = none → ∀ w,
      convert_value (some cat) (some fu) (some tu) (some w) = .ok .errUnknownCat ∧
      ConvResult.errorKind .errUnknownCat = some .UnknownCategory) ∧
    (∀ factors w, alookup cat to_base = some factors →
      (alookup fu factors = none ∨ alookup tu factors = none) →
      convert_value (some cat) (some fu) (some tu) (some w) = .ok .errMismatch ∧
      ConvResult.errorKind .errMismatch = some .UnitCategoryMismatch) := by
  refine ⟨rfl, rfl, rfl, rfl, rfl, ?_, ?_⟩
  · intro hT hcat w
    exact ⟨by simp [convert_value, hT, hcat], rfl⟩
  · intro factors w hcat h
    exact ⟨convert_linear_mismatch hcat h w, rfl⟩

/-- Witness for C3 (amended): instantiated at the unknown category "Bogus"
and at Length with the empty unit string. -/
theorem convert_validation_order_witness :
    (convert_value (some "Bogus") (some "m") (some "m") (some (.fin 1)) =
        .ok .errUnknownCat ∧
      ConvResult.errorKind .errUnknownCat = some .UnknownCategory) ∧
    (convert_value (some "Length") (some "") (some "m") (some (.fin 1)) =
        .ok .errMismatch ∧
      ConvResult.errorKind .errMismatch = some .UnitCategoryMismatch) :=
  ⟨((convert_validation_order "Bogus" "m" "m" (some (.fin 1))).2.2.2.2.2.1
      (by simp) rfl (.fin 1)),
   ((convert_validation_order "Length" "" "m" (some (.fin 1))).2.2.2.2.2.2
      ((alookup "Length" to_base).getD []) (.fin 1) rfl (Or.inl rfl))⟩

/-- C4 counterexample: the non-finite value NaN is not rejected — with
category Length and units m → m, `convert_value` performs the arithmetic and
returns a successful result carrying NaN instead of failing with
InvalidValue. -/
theorem nan_not_rejected_counterexample :
    convert_value (some "Length") (some "m") (some "m") (some .nan) =
      .ok (.ok .nan "m" "m" .nan) := by
  have h := @convert_linear_ok "Length" "m" "m" ((alookup "Length" to_base).getD [])
    1.0 1.0 rfl rfl rfl .nan
  simpa [PyNum.mulQ, PyNum.divQ] using h

/-- C4 (amended): `convert_value` fails with the InvalidValue failure exactly
when the value is missing (None), before any arithmetic; a non-finite value
such as NaN is not rejected by any finiteness check and flows through the
arithmetic into a successful result. -/
theorem missing_value_rejected_nan_not (cat fu tu : String) :
    (convert_value (some cat) (some fu) (some tu) none = .ok .errValue ∧
      ConvResult.errorKind .errValue = some .InvalidValue) ∧
    (∀ factors a b, alookup cat to_base = some factors →
      alookup fu factors = some a → alookup tu factors = some b →
      convert_value (some cat) (some fu) (some tu) (some .nan) =
        .ok (.ok .nan fu tu .nan)) := by
  refine ⟨⟨rfl, rfl⟩, ?_⟩
  intro factors a b hcat ha hb
  simpa [PyNum.mulQ, PyNum.divQ] using convert_linear_ok hcat ha hb .nan

/-- Witness for C4 (amended): instantiated at Length, m → m. -/
theorem missing_value_rejected_nan_not_witness :
    (convert_value (some "Length") (some "m") (some "m") none = .ok .errValue ∧
      ConvResult.errorKind .errValue = some .InvalidValue) ∧
    convert_value (some "Length") (some "m") (some "m") (some .nan) =
      .ok (.ok .nan "m" "m" .nan) :=
  ⟨(missing_value_rejected_nan_not "Length" "m" "m").1,
   (missing_value_rejected_nan_not "Length" "m" "m").2
      ((alookup "Length" to_base).getD []) 1.0 1.0 rfl rfl rfl⟩

/-- C5: for category Temperature with fromUnit K, any negative value is
rejected with the InvalidValue (negative Kelvin) failure whichever valid
target unit is chosen; and no such domain check is applied to the output — a
conversion whose result is a negative Kelvin value still succeeds. -/
theorem negative_kelvin_rejected (tu : String) (x : ℚ) :
    (tu ∈ TEMP_UNITS → x < 0 →
      convert_value (some "Temperature") (some "K") (some tu) (some (.fin x)) =
        .ok .errNegKelvin ∧
      ConvResult.errorKind .errNegKelvin = some .InvalidValue) ∧
    (x < -273.15 →
      convert_value (some "Temperature") (some "C") (some "K") (some (.fin x)) =
        .ok (.ok (.fin x) "C" "K" (.fin (x + 273.15))) ∧
      x + 273.15 < 0) := by
  constructor
  · intro htu hx
    refine ⟨convert_temp_negK htu ?_, rfl⟩
    simp [PyNum.ltZero, hx]
  · intro hx
    have hC : "C" ∈ TEMP_UNITS := by simp [TEMP_UNITS]
    have hKm : "K" ∈ TEMP_UNITS := by simp [TEMP_UNITS]
    have h := convert_temp_ok hC hKm (by simp) (temp_to_kelvin_fin hC x)
      (kelvin_to_temp_fin hKm _)
    constructor
    · simpa [spec_temp_to_kelvin, spec_kelvin_to_temp] using h
    · linarith

/-- Witness for C5: -5 K → C is rejected, and -500 C → K succeeds with the
negative Kelvin output -226.85. -/
theorem negative_kelvin_rejected_witness :
    (convert_value (some "Temperature") (some "K") (some "C") (some (.fin (-5))) =
        .ok .errNegKelvin ∧
      ConvResult.errorKind .errNegKelvin = some .InvalidValue) ∧
    (convert_value (some "Temperature") (some "C") (some "K") (some (.fin (-500))) =
        .ok (.ok (.fin (-500)) "C" "K" (.fin (-500 + 273.15))) ∧
      (-500 : ℚ) + 273.15 < 0) :=
  ⟨(negative_kelvin_rejected "C" (-5)).1 (by simp [TEMP_UNITS]) (by norm_num),
   (negative_kelvin_rejected "C" (-500)).2 (by norm_num)⟩

/-- C6: the round trip through any linear category is the identity (the two
scale factors cancel exactly in exact arithmetic), hence well within the
claimed 1e-9 relative tolerance. -/
theorem convert_roundtrip (cat u1 u2 : String) (factors : List (String × ℚ))
    (a b x : ℚ) (hcat : alookup cat to_base = some factors)
    (h1 : alookup u1 factors = some a) (h2 : alookup u2 factors = some b) :
    ∃ y z : ℚ,
      convert_value (some cat) (some u1) (some u2) (some (.fin x)) =
        .ok (.ok (.fin x) u1 u2 (.fin y)) ∧
      convert_value (some cat) (some u2) (some u1) (some (.fin y)) =
        .ok (.ok (.fin y) u2 u1 (.fin z)) ∧
      |z - x| ≤ 1e-9 * |x| := by
  have hapos := factor_pos hcat h1
  have hbpos := factor_pos hcat h2
  have ha0 : a ≠ 0 := hapos.ne'
  have hb0 : b ≠ 0 := hbpos.ne'
  refine ⟨x * a / b, x * a / b * b / a, ?_, ?_, ?_⟩
  · simpa [PyNum.mulQ, PyNum.divQ] using convert_linear_ok hcat h1 h2 (.fin x)
  · simpa [PyNum.mulQ, PyNum.divQ] using convert_linear_ok hcat h2 h1 (.fin (x * a / b))
  · have hz : x * a / b * b / a = x := by
      field_simp
    rw [hz, sub_self, abs_zero]
    exact mul_nonneg (by norm_num) (abs_nonneg x)

/-- Witness for C6: Length, m and ft, at 3. -/
theorem convert_roundtrip_witness :
    ∃ y z : ℚ,
      convert_value (some "Length") (some "m") (some "ft") (some (.fin 3)) =
        .ok (.ok (.fin 3) "m" "ft" (.fin y)) ∧
      convert_value (some "Length") (some "ft") (some "m") (some (.fin y)) =
        .ok (.ok (.fin y) "ft" "m" (.fin z)) ∧
      |z - 3| ≤ 1e-9 * |(3 : ℚ)| :=
  convert_roundtrip "Length" "m" "ft" ((alookup "Length" to_base).getD [])
    1.0 0.3048 3 rfl rfl rfl

/-- C7: converting any value from a unit to itself returns exactly the input,
both for every linear registry category and for Temperature (on inputs
accepted by the domain checks). -/
theorem convert_identity (cat u : String) (x : ℚ) :
    (∀ factors a, alookup cat to_base = some factors → alookup u factors = some a →
      convert_value (some cat) (some u) (some u) (some (.fin x)) =
        .ok (.ok (.fin x) u u (.fin x))) ∧
    (u ∈ TEMP_UNITS → ¬(u = "K" ∧ x < 0) →
      convert_value (some "Temperature") (some u) (some u) (some (.fin x)) =
        .ok (.ok (.fin x) u u (.fin x))) := by
  constructor
  · intro factors a hcat ha
    have hpos := factor_pos hcat ha
    have ha0 : a ≠ 0 := hpos.ne'
    have hxa : x * a / a = x := by
      field_simp
    simpa [PyNum.mulQ, PyNum.divQ, hxa] using convert_linear_ok hcat ha ha (.fin x)
  · intro hu hK
    have hK2 : ¬(u = "K" ∧ (PyNum.fin x).ltZero = true) := by
      simpa [PyNum.ltZero] using hK
    have h := convert_temp_ok hu hu hK2 (temp_to_kelvin_fin hu x) (kelvin_to_temp_fin hu _)
    rw [h, spec_temp_roundtrip]

/-- Witness for C7: Length m → m at 3, and Temperature C → C at 25. -/
theorem convert_identity_witness :
    convert_value (some "Length") (some "m") (some "m") (some (.fin 3)) =
      .ok (.ok (.fin 3) "m" "m" (.fin 3)) ∧
    convert_value (some "Temperature") (some "C") (some "C") (some (.fin 25)) =
      .ok (.ok (.fin 25) "C" "C" (.fin 25)) :=
  ⟨(convert_identity "Length" "m" 3).1 ((alookup "Length" to_base).getD []) 1.0 rfl rfl,
   (convert_identity "Temperature" "C" 25).2 (by simp [TEMP_UNITS]) (by simp)⟩

/-- C10: the dropdown query never fails — an unknown category (neither
Temperature nor a registry key) yields the placeholder list ["--"] with "--"
as both defaults; Temperature yields C/F/K with defaults C and F; and every
registry category yields its unit list with the first unit as default
from-unit and the second as default to-unit. -/
theorem update_unit_dropdowns_total (cat : String) :
    (cat ≠ "Temperature" → alookup cat to_base = none →
      update_unit_dropdowns cat = (["--"], "--", "--")) ∧
    (cat = "Temperature" → update_unit_dropdowns cat = (["C", "F", "K"], "C", "F")) ∧
    (∀ factors, alookup cat to_base = some factors →
      ∃ u0 u1 rest, factors.map Prod.fst = u0 :: u1 :: rest ∧
        update_unit_dropdowns cat = (u0 :: u1 :: rest, u0, u1)) := by
  refine ⟨?_, ?_, ?_⟩
  · intro hT hcat
    simp [update_unit_dropdowns, hT, hcat]
  · intro h
    subst h
    simp [update_unit_dropdowns, TEMP_UNITS]
  · intro factors hcat
    have hT := resolved_ne_temperature hcat
    have hlen := factors_length hcat
    rcases factors with _ | ⟨⟨k0, v0⟩, _ | ⟨⟨k1, v1⟩, rest⟩⟩
    · simp at hlen
    · simp at hlen
    · refine ⟨k0, k1, rest.map Prod.fst, by simp, ?_⟩
      simp [update_unit_dropdowns, hT, hcat]

/-- Witness for C10: the unknown category "Bogus", Temperature, and Length. -/
theorem update_unit_dropdowns_total_witness :
    update_unit_dropdowns "Bogus" = (["--"], "--", "--") ∧
    update_unit_dropdowns "Temperature" = (["C", "F", "K"], "C", "F") ∧
    ∃ u0 u1 rest,
      ((alookup "Length" to_base).getD []).map Prod.fst = u0 :: u1 :: rest ∧
      update_unit_dropdowns "Length" = (u0 :: u1 :: rest, u0, u1) :=
  ⟨(update_unit_dropdowns_total "Bogus").1 (by simp) rfl,
   (update_unit_dropdowns_total "Temperature").2.1 rfl,
   (update_unit_dropdowns_total "Length").2.2 ((alookup "Length" to_base).getD []) rfl⟩
